import Mathlib

/-!
Shallow embedding of the gemini-live-cam repository (src/app.py, src/live.py,
src/ui.py): the session/streaming engine (`AudioLoop`), the Flask control
plane, and the UI upload path, together with proofs about the spec's claims.
-/

namespace live

/-! ## Model connection configuration (src/live.py lines 18-45) -/

/-- Response modality of the live connection (google.genai types.Modality). -/
inductive Modality where
  | audio
  | text
deriving DecidableEq, Repr

/-- A tool enabled on the connection (src/live.py line 29 enables GoogleSearch). -/
inductive Tool where
  | googleSearch
deriving DecidableEq, Repr

/-- types.GenerationConfig as used in CONFIG (src/live.py lines 33-36). -/
structure GenerationConfig where
  max_output_tokens : Nat
  temperature : Rat
deriving DecidableEq, Repr

/-- types.LiveConnectConfig as used in CONFIG (src/live.py lines 31-43):
response modalities, generation config, prebuilt voice name, tool list. -/
structure LiveConnectConfig where
  response_modalities : List Modality
  generation_config : GenerationConfig
  voice_name : String
  tools : List Tool
deriving DecidableEq, Repr

/-- src/live.py line 29: tools = [types.Tool(google_search=types.GoogleSearch())]. -/
def tools : List Tool := [Tool.googleSearch]

/-- src/live.py lines 31-43: the module-level constant CONFIG.
response_modalities is the one-element list [AUDIO]; max_output_tokens 300,
temperature 0.7, voice "Leda", tools = google search. -/
def CONFIG : LiveConnectConfig :=
  { response_modalities := [Modality.audio]
    generation_config := { max_output_tokens := 300, temperature := 7 / 10 }
    voice_name := "Leda"
    tools := tools }

/-- src/live.py line 188: client.aio.live.connect(model=MODEL, config=CONFIG).
The config passed when a session's channel is opened, as a function of the
session's video mode: the code passes the module-level CONFIG regardless. -/
def connectConfig (_videoMode : String) : LiveConnectConfig := CONFIG

/-! ## Frame encoding dimensions (src/live.py `_get_frame`, `_get_screen`)

`_get_frame` (lines 77-92) converts the captured frame to RGB and calls
PIL `Image.thumbnail((1024, 1024))` before JPEG-encoding, so the emitted
dimensions follow PIL's thumbnail computation.  `_get_screen`
(lines 104-117) JPEG-encodes the grabbed monitor image with no resizing. -/

/-- PIL round_aspect for the branch x/y >= aspect: the new width is the
integer among floor and ceiling of y*w/h whose ratio to y is nearest to
the aspect w/h (floor wins ties), clamped to at least 1.  Exact rational
comparison: key(n) = abs (w*y - n*h) / (h*y). -/
def round_aspect_w (w h y : Nat) : Nat :=
  let nf := y * w / h
  let nc := (y * w + h - 1) / h
  let n := if y * w - nf * h ≤ nc * h - y * w then nf else nc
  max n 1

/-- PIL round_aspect for the branch x/y < aspect: the new height is the
integer among floor and ceiling of x*h/w whose key 0 if n = 0 else
abs (aspect - x/n) is smallest (floor wins ties), clamped to at least 1.
Exact comparison via cross-multiplication: for w*nf <= x*h <= w*nc,
key(nf) <= key(nc) iff (x*h - w*nf) * nc <= (w*nc - x*h) * nf. -/
def round_aspect_h (w h x : Nat) : Nat :=
  let nf := x * h / w
  let nc := (x * h + w - 1) / w
  let n :=
    if nf = 0 then nf
    else if (x * h - w * nf) * nc ≤ (w * nc - x * h) * nf then nf else nc
  max n 1

/-- PIL Image.thumbnail dimension computation for an image of size w x h
and a bounding box x x y: return unchanged when the image already fits the
box, otherwise scale the longer-relative side down to the box, choosing
the other dimension by round_aspect.  (PIL: if x >= width and y >= height
return; aspect = width/height; if x/y >= aspect then x = round_aspect
(y*aspect) else y = round_aspect (x/aspect).) -/
def thumbnailDims (w h x y : Nat) : Nat × Nat :=
  if w ≤ x ∧ h ≤ y then (w, h)
  else if y * w ≤ x * h then (round_aspect_w w h y, y)
  else (x, round_aspect_h w h x)

/-- Dimensions of the JPEG payload emitted by AudioLoop._get_frame
(src/live.py lines 77-92) for a raw camera frame of size w x h:
img.thumbnail((1024, 1024)). -/
def get_frame_dims (w h : Nat) : Nat × Nat := thumbnailDims w h 1024 1024

/-- Dimensions of the JPEG payload emitted by AudioLoop._get_screen
(src/live.py lines 104-117) for a grabbed monitor image of size w x h:
the image is saved as JPEG with no resizing. -/
def get_screen_dims (w h : Nat) : Nat × Nat := (w, h)

/-! ## Task handles and AudioLoop.stop (src/live.py lines 212-221)

stop() sets self.running = False, calls task.cancel() on every task in
self.tasks that is not done, then clears self.tasks. -/

/-- An asyncio task handle as AudioLoop.stop observes it: whether the task
has completed (task.done()) and whether cancellation has been requested
(task.cancel() was called). -/
structure TaskH where
  done : Bool
  cancelRequested : Bool
deriving DecidableEq, Repr

/-- The engine-level state AudioLoop.stop touches: the running flag and the
task list. -/
structure StopState where
  running : Bool
  tasks : List TaskH
deriving DecidableEq, Repr

/-- src/live.py lines 214-217: the cancellation pass of stop() — for each
task in list(self.tasks), call task.cancel() unless task.done(). -/
def cancelPass (ts : List TaskH) : List TaskH :=
  ts.map fun t => if t.done then t else { t with cancelRequested := true }

/-- src/live.py lines 212-221: AudioLoop.stop.  Returns the state after
stop (running := false, tasks cleared) together with the task handles as
they stand after the cancellation pass. -/
def stop (s : StopState) : StopState × List TaskH :=
  ({ running := false, tasks := [] }, cancelPass s.tasks)

/-! ## Queue and task structure (src/live.py lines 48-203)

Which task gets from / puts into which of the two asyncio queues the
AudioLoop owns (self.audio_in_queue, self.out_queue), transcribed from
each task body, plus the queue capacities from __init__ and the task set
spawned by run(). -/

/-- The two asyncio.Queue attributes of AudioLoop (src/live.py lines 51-52,
192-193). -/
inductive QueueId where
  | audio_in_queue
  | out_queue
deriving DecidableEq, Repr

/-- The coroutine methods of AudioLoop that run() may spawn as tasks. -/
inductive TaskKind where
  | send_text
  | send_realtime
  | listen_audio
  | get_frames
  | get_screen
  | receive_audio
  | play_audio
deriving DecidableEq, Repr

/-- The queues a given task body calls .put / .put_nowait on:
get_frames puts frames into out_queue (line 101), get_screen puts screen
frames into out_queue (line 125), listen_audio puts microphone chunks into
out_queue (line 149), receive_audio put_nowaits model audio into
audio_in_queue (line 160). -/
def putsTo : TaskKind → List QueueId
  | .send_text => []
  | .send_realtime => []
  | .listen_audio => [.out_queue]
  | .get_frames => [.out_queue]
  | .get_screen => [.out_queue]
  | .receive_audio => [.audio_in_queue]
  | .play_audio => []

/-- The queues a given task body calls .get on: send_realtime gets from
out_queue (line 129), play_audio gets from audio_in_queue (line 182). -/
def getsFrom : TaskKind → List QueueId
  | .send_text => []
  | .send_realtime => [.out_queue]
  | .listen_audio => []
  | .get_frames => []
  | .get_screen => []
  | .receive_audio => []
  | .play_audio => [.audio_in_queue]

/-- maxsize of a queue as constructed in __init__ and run()
(src/live.py lines 51-52, 192-193): audio_in_queue is unbounded (maxsize
0 in asyncio means unbounded), out_queue has maxsize 5. -/
def queueMaxsize : QueueId → Nat
  | .audio_in_queue => 0
  | .out_queue => 5

/-- The task set run() spawns for a given video mode (src/live.py lines
195-203): send_text, send_realtime, listen_audio, then get_frames when
mode is camera / get_screen when mode is screen, then receive_audio and
play_audio. -/
def spawnedTasks (mode : String) : List TaskKind :=
  [TaskKind.send_text, TaskKind.send_realtime, TaskKind.listen_audio] ++
    (if mode = "camera" then [TaskKind.get_frames]
     else if mode = "screen" then [TaskKind.get_screen]
     else []) ++
    [TaskKind.receive_audio, TaskKind.play_audio]

/-! ## The receive task (src/live.py lines 151-171)

receive_audio iterates the responses of one turn; for each response, if
response.data is truthy it put_nowaits the bytes into audio_in_queue and
appends them to received_audio; then, if the response has parts, each
part with truthy text is printed and appended to received_texts (a part
with a tool_call is only printed). -/

/-- A part of a model response (response.parts element): optional text and
optional tool call name. -/
structure Part where
  text : Option String
  tool_call : Option String
deriving DecidableEq, Repr

/-- One response event of a turn: response.data (None or bytes, modelled
as an optional byte list) and response.parts (absent when the object has
no parts attribute). -/
structure LiveResponse where
  data : Option (List Nat)
  parts : Option (List Part)
deriving DecidableEq, Repr

/-- The buffers receive_audio mutates. -/
structure RecvState where
  audio_in_queue : List (List Nat)
  received_texts : List String
  received_audio : List (List Nat)
deriving DecidableEq, Repr

/-- Python truthiness of bytes: None and b"" are falsy. -/
def truthyBytes : Option (List Nat) → Option (List Nat)
  | some (a :: as) => some (a :: as)
  | _ => none

/-- Python truthiness of str: None and "" are falsy. -/
def truthyStr : Option String → Option String
  | some s => if s = "" then none else some s
  | none => none

/-- src/live.py lines 165-171: the inner loop over response.parts — a part
with truthy text is appended to received_texts. -/
def processParts (s : RecvState) (ps : List Part) : RecvState :=
  ps.foldl
    (fun s p =>
      match truthyStr p.text with
      | some t => { s with received_texts := s.received_texts ++ [t] }
      | none => s)
    s

/-- src/live.py lines 157-171: handling of one response — truthy data goes
to audio_in_queue (put_nowait never raises on an unbounded queue) and
received_audio, then the parts loop runs when the attribute is present. -/
def processResponse (s : RecvState) (r : LiveResponse) : RecvState :=
  let s :=
    match truthyBytes r.data with
    | some d =>
        { s with
          audio_in_queue := s.audio_in_queue ++ [d]
          received_audio := s.received_audio ++ [d] }
    | none => s
  match r.parts with
  | some ps => processParts s ps
  | none => s

/-- One full turn of receive_audio (the async for over session.receive()):
responses are processed in emission order. -/
def processTurn (s : RecvState) (rs : List LiveResponse) : RecvState :=
  rs.foldl processResponse s

/-- A scripted event of the claim's premise: a text fragment or an audio
chunk. -/
inductive ScriptEvent where
  | textFrag (t : String)
  | audioChunk (d : List Nat)
deriving DecidableEq, Repr

/-- The response object the scripted channel emits for one event: an audio
chunk arrives as response.data, a text fragment as a single part with
text set. -/
def eventResponse : ScriptEvent → LiveResponse
  | .textFrag t => { data := none, parts := some [{ text := some t, tool_call := none }] }
  | .audioChunk d => { data := some d, parts := none }

/-- The text payload of a scripted event, if it is a text fragment. -/
def eventText : ScriptEvent → Option String
  | .textFrag t => some t
  | .audioChunk _ => none

/-- The audio payload of a scripted event, if it is an audio chunk. -/
def eventAudio : ScriptEvent → Option (List Nat)
  | .textFrag _ => none
  | .audioChunk d => some d

/-! ## Cleanup and run (src/live.py lines 185-210, 223-244)

run() wraps the channel open and the task group in try / except
asyncio.CancelledError / except Exception / finally: self._cleanup().
_cleanup() sets session = None and closes each of audio_stream and
playback_stream inside its own try/except pass, the whole body inside an
outer try/except that only prints. -/

/-- A PyAudio stream handle whose close() call may raise. -/
structure Stream where
  closeRaises : Bool
deriving DecidableEq, Repr

/-- The resources _cleanup releases, plus a counter of completed _cleanup
invocations (for stating the exactly-once property). -/
structure LoopRes where
  session : Bool
  audio_stream : Option Stream
  playback_stream : Option Stream
  cleanupCount : Nat
deriving DecidableEq, Repr

/-- stream.close(): raises (modelled as Except.error) iff the handle is
faulty. -/
def closeStream (st : Stream) : Except String Unit :=
  if st.closeRaises then Except.error "close failed" else Except.ok ()

/-- src/live.py lines 230-235 and 237-242: close one stream handle inside
try/except pass — the close error is swallowed. -/
def tryCloseStream (st : Stream) : Unit :=
  match closeStream st with
  | Except.ok _ => ()
  | Except.error _ => ()

/-- src/live.py lines 225-242: the body of _cleanup under the outer try —
release the session reference, then close-and-null each stream.  The
Except result records whether anything escaped to the outer handler. -/
def cleanupBody (s : LoopRes) : Except String LoopRes := do
  let s := { s with session := false }
  let s :=
    match s.audio_stream with
    | some st =>
        let _ := tryCloseStream st
        { s with audio_stream := none }
    | none => s
  let s :=
    match s.playback_stream with
    | some st =>
        let _ := tryCloseStream st
        { s with playback_stream := none }
    | none => s
  pure s

/-- src/live.py lines 223-244: AudioLoop._cleanup — runs cleanupBody; an
error reaching the outer except is only printed, so _cleanup itself never
raises.  The invocation counter is incremented exactly once per call. -/
def cleanup (s : LoopRes) : LoopRes :=
  match cleanupBody s with
  | Except.ok r => { r with cleanupCount := s.cleanupCount + 1 }
  | Except.error _ => { s with cleanupCount := s.cleanupCount + 1 }

/-- How the try block of run() ends: the channel open fails immediately
(an Exception before any task is spawned), the task group completes
normally, the session is cancelled, or some task faults with an unhandled
exception. -/
inductive RunOutcome where
  | openFail
  | normal
  | cancelled
  | fault
deriving DecidableEq, Repr

/-- The state effect of run()'s try block before control reaches the
finally clause: on an immediate open failure nothing was acquired; on the
other outcomes the channel was opened (session set) and the audio tasks
opened their device handles (src/live.py lines 137, 174). -/
def runBody (s : LoopRes) (o : RunOutcome) : LoopRes :=
  match o with
  | .openFail => s
  | _ =>
      { s with
        session := true
        audio_stream := some { closeRaises := false }
        playback_stream := some { closeRaises := false } }

/-- src/live.py lines 185-210: AudioLoop.run — the try block runs to its
outcome, the except arms swallow CancelledError (pass) and Exception
(print), and the finally clause invokes _cleanup exactly once.  run is a
total function: no exception propagates to the caller. -/
def run (s : LoopRes) (o : RunOutcome) : LoopRes :=
  cleanup (runBody s o)

end live

namespace app

/-! ## Rate limiting (src/app.py lines 21-35) -/

/-- src/app.py line 26: REQUEST_INTERVAL = 10.0 seconds. -/
def REQUEST_INTERVAL : Rat := 10

/-- src/app.py lines 29-35: is_rate_limited — if the endpoint has no
recorded time, or now minus the recorded time is at least
REQUEST_INTERVAL, record now and return False (accepted); otherwise
return True (rejected) leaving the record unchanged.  Returns the flag
together with the updated last_request_time map. -/
def is_rate_limited (m : String → Option Rat) (endpoint : String) (now : Rat) :
    Bool × (String → Option Rat) :=
  match m endpoint with
  | none => (false, fun e => if e = endpoint then some now else m e)
  | some t =>
      if REQUEST_INTERVAL ≤ now - t then
        (false, fun e => if e = endpoint then some now else m e)
      else (true, m)

/-! ## Controller state (src/app.py lines 12-19) and session handlers

The globals: audio_loop_instance (an AudioLoop or None), status
("running" | "paused" | "stopped"), mode (a string, "none" when no
session).  An AudioLoop instance is observed here through the two facts
the handlers change: its running flag, and whether stop() was called on
it (stop cancels and clears its tasks; pause only clears the running
flag, leaving the instance's tasks uncancelled, so the instance's thread
and task group stay alive).  Instances the globals no longer reference
are kept in `dropped`: their threads are never joined or cancelled by
the code that drops them. -/

/-- The controller status global (src/app.py line 17). -/
inductive Status where
  | running
  | paused
  | stopped
deriving DecidableEq, Repr

/-- One AudioLoop instance as the control plane affects it. -/
structure LoopInst where
  running : Bool
  stopCalled : Bool
deriving DecidableEq, Repr

/-- The module-level mutable state of src/app.py (camera handle elided):
status, mode, the current audio_loop_instance, the instances dropped by
reassignment or stop, and the rate-limit map. -/
structure Ctrl where
  status : Status
  mode : String
  audio_loop_instance : Option LoopInst
  dropped : List LoopInst
  rl : String → Option Rat

/-- The initial module state (src/app.py lines 15-24). -/
def initCtrl : Ctrl :=
  { status := Status.stopped, mode := "none", audio_loop_instance := none
    dropped := [], rl := fun _ => none }

/-- A live AudioLoop instance: one on which stop() was never called, so
its tasks were never cancelled and its thread's task group can still be
running (pause only sets the running flag, which tasks blocked at a
suspension point — input(), queue.get() — do not observe). -/
def liveLoops (c : Ctrl) : Nat :=
  (c.dropped ++ (match c.audio_loop_instance with
    | some l => [l]
    | none => [])).countP fun l => !l.stopCalled

/-- src/app.py lines 41-53: run_event_loop(selected_mode) — executed on a
fresh daemon thread; rebinds audio_loop_instance to a new AudioLoop
(dropping any previous instance without stopping it), sets status to
running and mode to the selected mode, then drives the loop's run(). -/
def run_event_loop (c : Ctrl) (selected_mode : String) : Ctrl :=
  { c with
    audio_loop_instance := some { running := true, stopCalled := false }
    dropped := c.dropped ++ (match c.audio_loop_instance with
      | some l => [l]
      | none => [])
    status := Status.running
    mode := selected_mode }

/-- src/app.py lines 64-85: the /start handler.  Returns the new state and
the HTTP status code.  request.json.get("mode", "camera") supplies the
default mode. -/
def start_session (c : Ctrl) (reqMode : Option String) (now : Rat) : Ctrl × Nat :=
  let lr := is_rate_limited c.rl "start" now
  let c := { c with rl := lr.2 }
  if lr.1 then (c, 429)
  else
    let requested_mode := reqMode.getD "camera"
    if c.status = Status.running ∧ c.mode = requested_mode then (c, 400)
    else if c.status = Status.running ∧ c.mode ≠ requested_mode then (c, 400)
    else (run_event_loop c requested_mode, 200)

/-- src/app.py lines 88-100: the /pause handler — requires a current
instance; sets its running flag to False (its tasks are not cancelled)
and status to paused. -/
def pause_session (c : Ctrl) (now : Rat) : Ctrl × Nat :=
  let lr := is_rate_limited c.rl "pause" now
  let c := { c with rl := lr.2 }
  if lr.1 then (c, 429)
  else
    match c.audio_loop_instance with
    | none => (c, 400)
    | some l =>
        ({ c with audio_loop_instance := some { l with running := false }
                  status := Status.paused }, 200)

/-- src/app.py lines 103-116: the /resume handler — requires status
paused; starts a new thread running run_event_loop with the current
mode (a fresh AudioLoop; the paused one is dropped unstopped). -/
def resume_session (c : Ctrl) (now : Rat) : Ctrl × Nat :=
  let lr := is_rate_limited c.rl "resume" now
  let c := { c with rl := lr.2 }
  if lr.1 then (c, 429)
  else if c.status ≠ Status.paused then (c, 400)
  else (run_event_loop c c.mode, 200)

/-- src/app.py lines 119-142: the /stop handler — requires a current
instance; calls its stop() (running := false, tasks cancelled and
cleared), releases the reference, joins the thread with a timeout, and
sets status stopped and mode "none". -/
def stop_session (c : Ctrl) (now : Rat) : Ctrl × Nat :=
  let lr := is_rate_limited c.rl "stop" now
  let c := { c with rl := lr.2 }
  if lr.1 then (c, 429)
  else
    match c.audio_loop_instance with
    | none => (c, 400)
    | some l =>
        ({ c with audio_loop_instance := none
                  dropped := c.dropped ++ [{ l with running := false, stopCalled := true }]
                  status := Status.stopped
                  mode := "none" }, 200)

/-- A control-plane request with its payload. -/
inductive Req where
  | start (mode : Option String)
  | pause
  | resume
  | stop
deriving DecidableEq, Repr

/-- Dispatch one timestamped request to its handler. -/
def handle (c : Ctrl) (r : Req) (now : Rat) : Ctrl × Nat :=
  match r with
  | Req.start m => start_session c m now
  | Req.pause => pause_session c now
  | Req.resume => resume_session c now
  | Req.stop => stop_session c now

/-- Run a sequence of timestamped requests from a state. -/
def execTrace (c : Ctrl) (tr : List (Req × Rat)) : Ctrl :=
  tr.foldl (fun c e => (handle c e.1 e.2).1) c

/-! ## The channel-open failure path (src/app.py 41-53 with src/live.py
185-210)

When run_event_loop's asyncio.run(audio_loop_instance.run()) hits an
immediate channel-open failure, run()'s except Exception arm prints the
traceback and the finally arm runs _cleanup; the thread then ends.  No
task was ever appended to self.tasks (the TaskGroup is entered only
after connect succeeds), nothing resets the module status global, and no
error value reaches the Flask handlers. -/

/-- The freshly constructed AudioLoop's resource state
(src/live.py __init__, lines 49-62). -/
def freshLoopRes : live.LoopRes :=
  { session := false, audio_stream := none, playback_stream := none, cleanupCount := 0 }

/-- The observable outcome of run_event_loop when the channel open fails
immediately. -/
structure OpenFailResult where
  ctrl : Ctrl
  loopState : live.LoopRes
  tasks : List live.TaskKind

/-- run_event_loop under an immediate channel-open failure: the module
state is as run_event_loop set it (status running, new instance bound),
the loop's run() ends through the exception arm with cleanup, and the
session's task list stays empty. -/
def run_event_loop_openFail (c : Ctrl) (selected_mode : String) : OpenFailResult :=
  { ctrl := run_event_loop c selected_mode
    loopState := live.run freshLoopRes live.RunOutcome.openFail
    tasks := [] }

end app

namespace ui

/-! ## The browser upload path (src/ui.py lines 34-50) and the
/upload_frame handler -/

/-- src/ui.py lines 35-50: video_frame_callback — JPEG-encodes the webcam
frame and POSTs it to /upload_frame as the multipart file field "frame";
any error from the call is swallowed so the stream is not interrupted.
Modelled as the request it produces. -/
structure UploadRequest where
  frame : Option (List Nat)
deriving DecidableEq, Repr

/-- The response of the /upload_frame handler: HTTP status code. -/
structure UploadResponse where
  code : Nat
deriving DecidableEq, Repr

/-- Modelled from the spec: the POST /upload_frame handler is not present
under src/ (src/app.py defines no such route; only its caller,
video_frame_callback in src/ui.py line 44, is).  From spec section 6:
"POST /upload_frame (multipart file field frame) → accepted only while
running; decodes and pushes into FrameHandoff, 400/500 on malformed
input or full queue."  FrameHandoff is the bounded FIFO of capacity 5
(spec section 3); decoding is the opaque JPEG decode, passed as a
parameter.  Accepting returns 200 and appends the decoded frame. -/
def upload_frame (decode : List Nat → Option (List Nat))
    (status : app.Status) (queue : List (List Nat)) (capacity : Nat)
    (req : UploadRequest) : UploadResponse × List (List Nat) :=
  if status ≠ app.Status.running then ({ code := 400 }, queue)
  else
    match req.frame with
    | none => ({ code := 400 }, queue)
    | some raw =>
        match decode raw with
        | none => ({ code := 400 }, queue)
        | some f =>
            if capacity ≤ queue.length then ({ code := 500 }, queue)
            else ({ code := 200 }, queue ++ [f])

end ui

namespace live

/-- The pair (a, b) realizes the aspect ratio w : h up to an additive
slack coming from integer rounding: a/b differs from w/h by at most
slack/(b*h) in cross-multiplied form. -/
def aspectClose (a b w h slack : Nat) : Prop :=
  a * h ≤ b * w + slack ∧ b * w ≤ a * h + slack

end live

namespace app

/-- The controller invariant maintained by every handler except pause:
every dropped instance was stopped, the status is not paused, and a
stopped status carries no current instance. -/
def CtrlInv (c : Ctrl) : Prop :=
  (∀ l ∈ c.dropped, l.stopCalled = true) ∧
  c.status ≠ Status.paused ∧
  (c.status = Status.stopped → c.audio_loop_instance = none)

end app

/-! ## Theorems -/

/-- C5 counterexample: the claim states the connection configuration's
response modalities are audio and text; in src/live.py line 32 the
modalities list is [AUDIO] only — text is not among them. -/
theorem C5_counterexample : live.Modality.text ∉ live.CONFIG.response_modalities := by
  decide

/-- C5 amended: every session's channel is opened with the one fixed
constant CONFIG, independent of the session's mode, whose response
modalities are audio only, with max_output_tokens 300, temperature 0.7,
voice "Leda", and the google-search tool enabled. -/
theorem C5_amended_config :
    (∀ m : String, live.connectConfig m = live.CONFIG) ∧
    live.CONFIG.response_modalities = [live.Modality.audio] ∧
    live.CONFIG.generation_config.max_output_tokens = 300 ∧
    live.CONFIG.generation_config.temperature = 7 / 10 ∧
    live.CONFIG.voice_name = "Leda" ∧
    live.CONFIG.tools = [live.Tool.googleSearch] :=
  ⟨fun _ => rfl, rfl, rfl, rfl, rfl, rfl⟩

/-- C6: AudioLoop.stop sets running to false, requests cancellation of
every not-yet-done task in the task set, clears the task set, and is
idempotent at the engine level — applied to the already-stopped state it
returns the same state and touches no task. -/
theorem C6_stop_idempotent :
    ∀ s : live.StopState,
      (live.stop s).1.running = false ∧
      (live.stop s).1.tasks = [] ∧
      ((live.stop s).2.all fun t => t.done || t.cancelRequested) = true ∧
      live.stop (live.stop s).1 = ((live.stop s).1, []) := by
  intro s
  refine ⟨rfl, rfl, ?_, rfl⟩
  simp only [live.stop, live.cancelPass, List.all_map, List.all_eq_true, Function.comp]
  intro t ht
  by_cases hd : t.done <;> simp [hd]

/-- C7: however run() ends (immediate channel-open failure, normal
completion, cancellation, or an unhandled fault), the cleanup routine
runs exactly once, releases the channel reference and both device
handles, and its body never lets an error escape. -/
theorem C7_cleanup_once :
    ∀ (s : live.LoopRes) (o : live.RunOutcome),
      (live.run s o).cleanupCount = s.cleanupCount + 1 ∧
      (live.run s o).session = false ∧
      (live.run s o).audio_stream = none ∧
      (live.run s o).playback_stream = none ∧
      (live.cleanupBody s).isOk = true := by
  intro s o
  rcases s with ⟨ses, a, p, n⟩
  cases o <;> cases a <;> cases p <;>
    simp [live.run, live.runBody, live.cleanup, live.cleanupBody, live.tryCloseStream,
      live.closeStream, Except.isOk, Except.toBool, pure, Except.pure]

/-- C2 counterexample: the claim states that after start(mode = camera)
with a channel that immediately errors on open, the controller state
reverts to stopped; on the code, run_event_loop from the initial state
leaves status = running (nothing resets the global on failure). -/
theorem C2_counterexample :
    (app.run_event_loop_openFail app.initCtrl "camera").ctrl.status = app.Status.running ∧
    app.Status.running ≠ app.Status.stopped := by
  exact ⟨rfl, by decide⟩

/-- C2 amended: when the channel open immediately fails, the session's
task list stays empty (no tasks remain), cleanup runs exactly once and
releases the channel reference, and the exception is swallowed inside
the loop thread — but the controller state remains "running" with the
instance reference still bound; it does not revert to "stopped" and no
error is reported to the controller. -/
theorem C2_amended_openFail :
    ∀ (c : app.Ctrl) (m : String),
      (app.run_event_loop_openFail c m).tasks = [] ∧
      (app.run_event_loop_openFail c m).loopState.cleanupCount = 1 ∧
      (app.run_event_loop_openFail c m).loopState.session = false ∧
      (app.run_event_loop_openFail c m).loopState.audio_stream = none ∧
      (app.run_event_loop_openFail c m).loopState.playback_stream = none ∧
      (app.run_event_loop_openFail c m).ctrl.status = app.Status.running ∧
      (app.run_event_loop_openFail c m).ctrl.audio_loop_instance =
        some { running := true, stopCalled := false } :=
  fun _ _ => ⟨rfl, rfl, rfl, rfl, rfl, rfl, rfl⟩

/-- C10: the AudioLoop owns a single bounded outbound queue of capacity 5;
camera frames (get_frames), screen frames (get_screen) and microphone
chunks (listen_audio) are all put into that one queue, send_realtime is
the only task that gets from it, and every spawned task set contains
send_realtime and listen_audio. -/
theorem C10_single_out_queue :
    live.queueMaxsize live.QueueId.out_queue = 5 ∧
    (∀ t : live.TaskKind,
        live.QueueId.out_queue ∈ live.getsFrom t → t = live.TaskKind.send_realtime) ∧
    live.QueueId.out_queue ∈ live.putsTo live.TaskKind.get_frames ∧
    live.QueueId.out_queue ∈ live.putsTo live.TaskKind.get_screen ∧
    live.QueueId.out_queue ∈ live.putsTo live.TaskKind.listen_audio ∧
    (∀ m : String,
        live.TaskKind.send_realtime ∈ live.spawnedTasks m ∧
        live.TaskKind.listen_audio ∈ live.spawnedTasks m) := by
  refine ⟨rfl, ?_, by decide, by decide, by decide, ?_⟩
  · intro t ht
    cases t <;> simp [live.getsFrom] at ht ⊢
  · intro m
    constructor <;> simp [live.spawnedTasks]

/-- C10 witness: the sole-consumer implication instantiated at
send_realtime, and the spawned-task facts at mode "camera". -/
theorem C10_single_out_queue_witness :
    live.TaskKind.send_realtime = live.TaskKind.send_realtime ∧
    live.TaskKind.send_realtime ∈ live.spawnedTasks "camera" ∧
    live.TaskKind.listen_audio ∈ live.spawnedTasks "camera" :=
  ⟨C10_single_out_queue.2.1 live.TaskKind.send_realtime (by decide),
   C10_single_out_queue.2.2.2.2.2 "camera"⟩

/-- C4 (the /upload_frame handler is modelled from the spec; it is absent
from src/, only its caller src/ui.py is present): a 200 is returned only
while the controller is running; while running, a well-formed upload with
queue space is decoded and appended to the FrameHandoff queue; a missing
field or an undecodable payload yields 400; a full queue yields 500; and
any non-200 outcome leaves the queue unchanged. -/
theorem C4_upload_frame_contract :
    ∀ (decode : List Nat → Option (List Nat)) (st : app.Status)
      (q : List (List Nat)) (req : ui.UploadRequest),
      ((ui.upload_frame decode st q 5 req).1.code = 200 → st = app.Status.running) ∧
      (st = app.Status.running → ∀ raw f, req.frame = some raw → decode raw = some f →
        q.length < 5 → ui.upload_frame decode st q 5 req = (⟨200⟩, q ++ [f])) ∧
      (st = app.Status.running → req.frame = none →
        (ui.upload_frame decode st q 5 req).1.code = 400) ∧
      (st = app.Status.running → ∀ raw, req.frame = some raw → decode raw = none →
        (ui.upload_frame decode st q 5 req).1.code = 400) ∧
      (st = app.Status.running → ∀ raw f, req.frame = some raw → decode raw = some f →
        5 ≤ q.length → (ui.upload_frame decode st q 5 req).1.code = 500) ∧
      ((ui.upload_frame decode st q 5 req).1.code ≠ 200 →
        (ui.upload_frame decode st q 5 req).2 = q) := by
  intro decode st q req
  refine ⟨?_, ?_, ?_, ?_, ?_, ?_⟩
  · intro h200
    by_contra hst
    simp [ui.upload_frame, hst] at h200
  · intro hst raw f hraw hf hlen
    simp [ui.upload_frame, hst, hraw, hf, Nat.not_le.mpr hlen]
  · intro hst hraw
    simp [ui.upload_frame, hst, hraw]
  · intro hst raw hraw hf
    simp [ui.upload_frame, hst, hraw, hf]
  · intro hst raw f hraw hf hlen
    simp [ui.upload_frame, hst, hraw, hf, hlen]
  · intro hne
    by_cases hst : st = app.Status.running
    · cases hraw : req.frame with
      | none => simp [ui.upload_frame, hst, hraw]
      | some raw =>
        cases hf : decode raw with
        | none => simp [ui.upload_frame, hst, hraw, hf]
        | some f =>
          by_cases hlen : 5 ≤ q.length
          · simp [ui.upload_frame, hst, hraw, hf, hlen]
          · exfalso
            apply hne
            simp [ui.upload_frame, hst, hraw, hf, hlen]
    · simp [ui.upload_frame, hst]

/-- C4 witness: uploading a decodable frame while running with an empty
queue returns 200 and appends the decoded frame. -/
theorem C4_upload_frame_contract_witness :
    ui.upload_frame (fun r => some r) app.Status.running [] 5 ⟨some [1]⟩ =
      (⟨200⟩, [[1]]) :=
  (C4_upload_frame_contract (fun r => some r) app.Status.running [] ⟨some [1]⟩).2.1
    rfl [1] [1] rfl rfl (by decide)

/-- C9: with a last accepted request at time t recorded for an endpoint,
a request strictly within REQUEST_INTERVAL of t is rejected with the map
unchanged — in particular the /start handler answers 429 — and a request
at least REQUEST_INTERVAL after t is accepted again, recording its own
time. -/
theorem C9_rate_limit :
    (∀ (m : String → Option Rat) ep t now, m ep = some t →
      now - t < app.REQUEST_INTERVAL → app.is_rate_limited m ep now = (true, m)) ∧
    (∀ (m : String → Option Rat) ep t now, m ep = some t →
      app.REQUEST_INTERVAL ≤ now - t →
      (app.is_rate_limited m ep now).1 = false ∧
      (app.is_rate_limited m ep now).2 ep = some now) ∧
    (∀ (c : app.Ctrl) (mo : Option String) t now, c.rl "start" = some t →
      now - t < app.REQUEST_INTERVAL → (app.start_session c mo now).2 = 429) := by
  refine ⟨?_, ?_, ?_⟩
  · intro m ep t now hm hlt
    simp [app.is_rate_limited, hm, not_le.mpr hlt]
  · intro m ep t now hm hle
    simp [app.is_rate_limited, hm, hle]
  · intro c mo t now hc hlt
    simp [app.start_session, app.is_rate_limited, hc, not_le.mpr hlt]

/-- C9 witness: with "start" accepted at time 0, a call at time 5 is
rejected (429 from the handler, map unchanged) and a call at time 12 is
accepted and recorded. -/
theorem C9_rate_limit_witness :
    app.is_rate_limited (fun e => if e = "start" then some 0 else none) "start" 5 =
      (true, fun e => if e = "start" then some 0 else none) ∧
    (app.is_rate_limited (fun e => if e = "start" then some 0 else none) "start" 12).1 = false ∧
    (app.is_rate_limited (fun e => if e = "start" then some 0 else none) "start" 12).2 "start" =
      some 12 ∧
    (app.start_session
      { app.initCtrl with rl := fun e => if e = "start" then some 0 else none }
      none 5).2 = 429 := by
  have hm : (fun e => if e = "start" then some (0 : Rat) else none) "start" = some 0 := by
    simp
  refine ⟨?_, ?_, ?_, ?_⟩
  · exact C9_rate_limit.1 (fun e => if e = "start" then some 0 else none) "start" 0 5 hm
      (by norm_num [app.REQUEST_INTERVAL])
  · exact (C9_rate_limit.2.1 (fun e => if e = "start" then some 0 else none) "start" 0 12 hm
      (by norm_num [app.REQUEST_INTERVAL])).1
  · exact (C9_rate_limit.2.1 (fun e => if e = "start" then some 0 else none) "start" 0 12 hm
      (by norm_num [app.REQUEST_INTERVAL])).2
  · exact C9_rate_limit.2.2
      { app.initCtrl with rl := fun e => if e = "start" then some 0 else none } none 0 5 hm
      (by norm_num [app.REQUEST_INTERVAL])

/-- C1 counterexample: the claim says a /start or /resume accepted while
a previous session's tasks may still be running must not yield two live
AudioLoop instances.  The accepted sequence start, pause, resume (three
distinct endpoints, so no rate limit applies) leaves two instances on
which stop() was never called: pause only clears the running flag of the
first instance without cancelling its tasks, and resume binds a fresh
AudioLoop over it. -/
theorem C1_counterexample :
    app.liveLoops (app.execTrace app.initCtrl
      [(app.Req.start none, 0), (app.Req.pause, 0), (app.Req.resume, 0)]) = 2 := by
  decide

/-- Every dropped-instance record produced by a non-pause handler step
satisfies the controller invariant. -/
theorem CtrlInv_step (c : app.Ctrl) (r : app.Req) (t : Rat) (hr : r ≠ app.Req.pause)
    (h : app.CtrlInv c) : app.CtrlInv (app.handle c r t).1 := by
  obtain ⟨hdrop, hpaused, hstopped⟩ := h
  cases r with
  | start m =>
    simp only [app.handle, app.start_session]
    split
    · exact ⟨hdrop, hpaused, hstopped⟩
    · split
      · exact ⟨hdrop, hpaused, hstopped⟩
      · split
        · exact ⟨hdrop, hpaused, hstopped⟩
        · rename_i hg1 hg2
          have hnr : c.status ≠ app.Status.running := by
            intro hs
            rcases eq_or_ne c.mode ((m).getD "camera") with he | he
            · exact hg1 ⟨hs, he⟩
            · exact hg2 ⟨hs, he⟩
          have hst : c.status = app.Status.stopped := by
            cases hcs : c.status with
            | running => exact absurd hcs hnr
            | paused => exact absurd hcs hpaused
            | stopped => rfl
          refine ⟨?_, by simp [app.run_event_loop], by simp [app.run_event_loop]⟩
          intro l hl
          simp only [app.run_event_loop, hstopped hst] at hl
          simp only [List.append_nil] at hl
          exact hdrop l hl
  | pause => exact absurd rfl hr
  | resume =>
    simp only [app.handle, app.resume_session]
    split
    · exact ⟨hdrop, hpaused, hstopped⟩
    · exact ⟨hdrop, hpaused, hstopped⟩
  | stop =>
    simp only [app.handle, app.stop_session]
    split
    · exact ⟨hdrop, hpaused, hstopped⟩
    · split
      · exact ⟨hdrop, hpaused, hstopped⟩
      · rename_i l hl
        refine ⟨?_, by simp, by simp⟩
        intro x hx
        simp only [List.mem_append, List.mem_singleton] at hx
        rcases hx with hx | hx
        · exact hdrop x hx
        · rw [hx]

/-- The invariant is preserved along any pause-free trace. -/
theorem CtrlInv_execTrace (tr : List (app.Req × Rat))
    (h : ∀ e ∈ tr, e.1 ≠ app.Req.pause) :
    ∀ c : app.Ctrl, app.CtrlInv c → app.CtrlInv (app.execTrace c tr) := by
  induction tr with
  | nil => exact fun c hc => hc
  | cons e es ih =>
    intro c hc
    exact ih (fun x hx => h x (List.mem_cons_of_mem _ hx)) _
      (CtrlInv_step c e.1 e.2 (h e (List.mem_cons_self _ _)) hc)

/-- The invariant bounds the number of live AudioLoop instances by one. -/
theorem liveLoops_le_one_of_inv (c : app.Ctrl) (h : app.CtrlInv c) :
    app.liveLoops c ≤ 1 := by
  obtain ⟨hdrop, -, -⟩ := h
  unfold app.liveLoops
  rw [List.countP_append]
  have h0 : c.dropped.countP (fun l => !l.stopCalled) = 0 := by
    rw [List.countP_eq_zero]
    intro l hl
    simp [hdrop l hl]
  rw [h0, Nat.zero_add]
  cases c.audio_loop_instance with
  | none => simp
  | some l => exact le_trans (List.countP_le_length _) (by simp)

/-- C1 amended: /start is rejected whenever the controller status is
running, so along any sequence of requests that contains no pause, at
most one AudioLoop instance is ever live; but a pause followed by an
accepted resume (or start) spawns a fresh AudioLoop while the paused
instance's tasks were never cancelled, so two live instances can result
(see the counterexample). -/
theorem C1_amended_single_session (tr : List (app.Req × Rat))
    (h : ∀ e ∈ tr, e.1 ≠ app.Req.pause) :
    app.liveLoops (app.execTrace app.initCtrl tr) ≤ 1 :=
  liveLoops_le_one_of_inv _
    (CtrlInv_execTrace tr h app.initCtrl ⟨by simp [app.initCtrl], by simp [app.initCtrl],
      fun _ => rfl⟩)

/-- C1 witness: the pause-free sequence start, stop, start keeps the live
instance count at most one. -/
theorem C1_amended_single_session_witness :
    app.liveLoops (app.execTrace app.initCtrl
      [(app.Req.start none, 0), (app.Req.stop, 0), (app.Req.start (some "screen"), 20)]) ≤ 1 :=
  C1_amended_single_session _ (by decide)

/-- Floor division bound: a/h scaled back by h stays within one h of a. -/
theorem div_mul_bounds (a h : Nat) (hh : 0 < h) : a / h * h ≤ a ∧ a < a / h * h + h := by
  have d := Nat.div_add_mod a h
  have m := Nat.mod_lt a hh
  have c : h * (a / h) = a / h * h := Nat.mul_comm _ _
  omega

/-- Ceiling division bound: the rounded-up quotient scaled back brackets a. -/
theorem ceil_mul_bounds (a h : Nat) (hh : 0 < h) (ha : 1 ≤ a) :
    a ≤ (a + h - 1) / h * h ∧ (a + h - 1) / h * h ≤ a + h - 1 := by
  have d := Nat.div_add_mod (a + h - 1) h
  have m := Nat.mod_lt (a + h - 1) hh
  have c : h * ((a + h - 1) / h) = (a + h - 1) / h * h := Nat.mul_comm _ _
  omega

/-- The width chosen by round_aspect never exceeds the box width x when
the image is at least as tall relative to the box (y*w <= x*h). -/
theorem round_aspect_w_le (w h x y : Nat) (hh : 0 < h) (hx : 1 ≤ x) (hyx : y * w ≤ x * h) :
    live.round_aspect_w w h y ≤ x := by
  simp only [live.round_aspect_w]
  have hcomm : x * h = h * x := Nat.mul_comm x h
  have hfloor : y * w / h ≤ x := by
    rw [Nat.div_le_iff_le_mul_add_pred hh]
    omega
  have hceil : (y * w + h - 1) / h ≤ x := by
    rw [Nat.div_le_iff_le_mul_add_pred hh]
    omega
  split
  · exact max_le hfloor hx
  · exact max_le hceil hx

/-- The height chosen by round_aspect never exceeds the box height y when
the image is at least as wide relative to the box (x*h <= y*w). -/
theorem round_aspect_h_le (w h x y : Nat) (hw : 0 < w) (hy : 1 ≤ y) (hxy : x * h ≤ y * w) :
    live.round_aspect_h w h x ≤ y := by
  simp only [live.round_aspect_h]
  have hcomm : y * w = w * y := Nat.mul_comm y w
  have hfloor : x * h / w ≤ y := by
    rw [Nat.div_le_iff_le_mul_add_pred hw]
    omega
  have hceil : (x * h + w - 1) / w ≤ y := by
    rw [Nat.div_le_iff_le_mul_add_pred hw]
    omega
  split
  · exact max_le hfloor hy
  · split
    · exact max_le hfloor hy
    · exact max_le hceil hy

/-- The chosen height differs from the exact aspect-preserving height by
at most one rounding step of size w in cross-multiplied form. -/
theorem round_aspect_h_aspect (w h x : Nat) (hw : 0 < w) (ha : 1 ≤ x * h) :
    live.round_aspect_h w h x * w ≤ x * h + w ∧ x * h ≤ live.round_aspect_h w h x * w + w := by
  obtain ⟨F1, F2⟩ := div_mul_bounds (x * h) w hw
  obtain ⟨G1, G2⟩ := ceil_mul_bounds (x * h) w hw ha
  simp only [live.round_aspect_h]
  split
  · rename_i h0
    rw [h0]
    simp only [Nat.max_eq_right (Nat.zero_le 1), Nat.one_mul]
    rw [h0] at F1 F2
    simp only [Nat.zero_mul] at F1 F2
    omega
  · split
    · rename_i hnf hcond
      rw [Nat.max_eq_left (Nat.pos_of_ne_zero hnf)]
      omega
    · rcases Nat.eq_zero_or_pos ((x * h + w - 1) / w) with h0 | h0
      · rw [h0]
        simp only [Nat.max_eq_right (Nat.zero_le 1), Nat.one_mul]
        rw [h0] at G1 G2
        simp only [Nat.zero_mul] at G1 G2
        omega
      · rw [Nat.max_eq_left h0]
        omega


/-- The chosen width differs from the exact aspect-preserving width by at
most one rounding step of size h in cross-multiplied form. -/
theorem round_aspect_w_aspect (w h y : Nat) (hh : 0 < h) (ha : 1 ≤ y * w) :
    live.round_aspect_w w h y * h ≤ y * w + h ∧ y * w ≤ live.round_aspect_w w h y * h + h := by
  obtain ⟨F1, F2⟩ := div_mul_bounds (y * w) h hh
  obtain ⟨G1, G2⟩ := ceil_mul_bounds (y * w) h hh ha
  simp only [live.round_aspect_w]
  split
  · rcases Nat.eq_zero_or_pos (y * w / h) with h0 | h0
    · rw [h0]
      simp only [Nat.max_eq_right (Nat.zero_le 1), Nat.one_mul]
      rw [h0] at F1 F2
      simp only [Nat.zero_mul] at F1 F2
      omega
    · rw [Nat.max_eq_left h0]
      omega
  · rcases Nat.eq_zero_or_pos ((y * w + h - 1) / h) with h0 | h0
    · rw [h0]
      simp only [Nat.max_eq_right (Nat.zero_le 1), Nat.one_mul]
      rw [h0] at G1 G2
      simp only [Nat.zero_mul] at G1 G2
      omega
    · rw [Nat.max_eq_left h0]
      omega

/-- C3 amended: camera-path frames (PIL thumbnail 1024 x 1024) are never
upscaled (a frame within the box is emitted unchanged), neither emitted
dimension exceeds 1024, and in the downscale case the emitted pair
preserves the aspect ratio up to one integer rounding step; screen-path
frames, however, are emitted at their original dimensions. -/
theorem C3_amended_frame_dims (w h : Nat) (hw : 0 < w) (hh : 0 < h) :
    (w ≤ 1024 → h ≤ 1024 → live.get_frame_dims w h = (w, h)) ∧
    (live.get_frame_dims w h).1 ≤ 1024 ∧
    (live.get_frame_dims w h).2 ≤ 1024 ∧
    (¬(w ≤ 1024 ∧ h ≤ 1024) →
      live.aspectClose (live.get_frame_dims w h).1 (live.get_frame_dims w h).2 w h (max w h)) ∧
    live.get_screen_dims w h = (w, h) := by
  unfold live.get_frame_dims live.thumbnailDims
  by_cases hfit : w ≤ 1024 ∧ h ≤ 1024
  · rw [if_pos hfit]
    exact ⟨fun _ _ => rfl, hfit.1, hfit.2, fun hc => absurd hfit hc, rfl⟩
  · rw [if_neg hfit]
    by_cases hb : 1024 * w ≤ 1024 * h
    · rw [if_pos hb]
      dsimp only
      have hra := round_aspect_w_le w h 1024 1024 hh (by norm_num) hb
      have hasp := round_aspect_w_aspect w h 1024 hh
        (le_trans (by norm_num) (Nat.le_mul_of_pos_right 1024 hw))
      refine ⟨fun h1 h2 => absurd ⟨h1, h2⟩ hfit, hra, le_refl _, fun _ => ?_, rfl⟩
      unfold live.aspectClose
      have hmax : h ≤ max w h := le_max_right w h
      omega
    · rw [if_neg hb]
      dsimp only
      have hxy : 1024 * h ≤ 1024 * w := le_of_lt (Nat.lt_of_not_le hb)
      have hrh := round_aspect_h_le w h 1024 1024 hw (by norm_num) hxy
      have hasp := round_aspect_h_aspect w h 1024 hw
        (le_trans (by norm_num) (Nat.le_mul_of_pos_right 1024 hh))
      refine ⟨fun h1 h2 => absurd ⟨h1, h2⟩ hfit, le_refl _, hrh, fun _ => ?_, rfl⟩
      unfold live.aspectClose
      have hmax : w ≤ max w h := le_max_left w h
      omega

/-- C3 counterexample: the claim covers the screen path too, but a grabbed
1920 x 1080 monitor frame is JPEG-encoded by _get_screen with no resize,
so the emitted width 1920 exceeds 1024. -/
theorem C3_counterexample :
    live.get_screen_dims 1920 1080 = (1920, 1080) ∧
    ¬(live.get_screen_dims 1920 1080).1 ≤ 1024 := by
  decide

/-- C3 witness: at a 1920 x 1080 camera frame both emitted dimensions are
within 1024. -/
theorem C3_amended_frame_dims_witness :
    (live.get_frame_dims 1920 1080).1 ≤ 1024 ∧ (live.get_frame_dims 1920 1080).2 ≤ 1024 :=
  ⟨(C3_amended_frame_dims 1920 1080 (by decide) (by decide)).2.1,
   (C3_amended_frame_dims 1920 1080 (by decide) (by decide)).2.2.1⟩

/-- The receive loop over a scripted turn accumulates, on top of any prior
state, exactly the audio chunks and the text fragments of the script in
emission order. -/
theorem processTurn_script (script : List live.ScriptEvent)
    (h : ∀ e ∈ script, live.eventText e ≠ some "" ∧ live.eventAudio e ≠ some []) :
    ∀ s : live.RecvState,
      live.processTurn s (script.map live.eventResponse) =
        { audio_in_queue := s.audio_in_queue ++ script.filterMap live.eventAudio
          received_texts := s.received_texts ++ script.filterMap live.eventText
          received_audio := s.received_audio ++ script.filterMap live.eventAudio } := by
  induction script with
  | nil =>
    intro s
    simp [live.processTurn]
  | cons e es ih =>
    intro s
    have he := h e (List.mem_cons_self _ _)
    have hes : ∀ x ∈ es, live.eventText x ≠ some "" ∧ live.eventAudio x ≠ some [] :=
      fun x hx => h x (List.mem_cons_of_mem _ hx)
    cases e with
    | textFrag t =>
      have ht : t ≠ "" := by
        intro hteq
        exact he.1 (by simp [live.eventText, hteq])
      simp only [List.map_cons, live.processTurn, List.foldl_cons]
      rw [show List.foldl live.processResponse
            (live.processResponse s (live.eventResponse (live.ScriptEvent.textFrag t)))
            (es.map live.eventResponse) =
          live.processTurn
            (live.processResponse s (live.eventResponse (live.ScriptEvent.textFrag t)))
            (es.map live.eventResponse) from rfl]
      rw [ih hes]
      simp [live.processResponse, live.eventResponse, live.truthyBytes, live.processParts,
        live.truthyStr, ht, live.eventText, live.eventAudio]
    | audioChunk d =>
      have hd : d ≠ [] := by
        intro hdeq
        exact he.2 (by simp [live.eventAudio, hdeq])
      obtain ⟨a, as, rfl⟩ : ∃ a as, d = a :: as := by
        cases d with
        | nil => exact absurd rfl hd
        | cons a as => exact ⟨a, as, rfl⟩
      simp only [List.map_cons, live.processTurn, List.foldl_cons]
      rw [show List.foldl live.processResponse
            (live.processResponse s (live.eventResponse (live.ScriptEvent.audioChunk (a :: as))))
            (es.map live.eventResponse) =
          live.processTurn
            (live.processResponse s (live.eventResponse (live.ScriptEvent.audioChunk (a :: as))))
            (es.map live.eventResponse) from rfl]
      rw [ih hes]
      simp [live.processResponse, live.eventResponse, live.truthyBytes,
        live.eventText, live.eventAudio]

/-- C8: for any scripted interleaving of nonempty text fragments and
nonempty audio chunks, the receive task starting from empty buffers ends
with received_texts equal to the script's text fragments in emission
order and received_audio (and the playback queue) equal to the script's
audio chunks in emission order — so exactly N transcript entries and M
audio entries. -/
theorem C8_receive_order (script : List live.ScriptEvent)
    (h : ∀ e ∈ script, live.eventText e ≠ some "" ∧ live.eventAudio e ≠ some []) :
    (live.processTurn ⟨[], [], []⟩ (script.map live.eventResponse)).received_texts =
      script.filterMap live.eventText ∧
    (live.processTurn ⟨[], [], []⟩ (script.map live.eventResponse)).received_audio =
      script.filterMap live.eventAudio ∧
    (live.processTurn ⟨[], [], []⟩ (script.map live.eventResponse)).audio_in_queue =
      script.filterMap live.eventAudio := by
  rw [processTurn_script script h ⟨[], [], []⟩]
  simp

/-- C8 witness: the script text "hi", audio [7], text "yo", audio [8]
yields transcripts ["hi", "yo"] and audio [[7], [8]] in order. -/
theorem C8_receive_order_witness :
    (live.processTurn ⟨[], [], []⟩
      ([live.ScriptEvent.textFrag "hi", live.ScriptEvent.audioChunk [7],
        live.ScriptEvent.textFrag "yo", live.ScriptEvent.audioChunk [8]].map
        live.eventResponse)).received_texts = ["hi", "yo"] ∧
    (live.processTurn ⟨[], [], []⟩
      ([live.ScriptEvent.textFrag "hi", live.ScriptEvent.audioChunk [7],
        live.ScriptEvent.textFrag "yo", live.ScriptEvent.audioChunk [8]].map
        live.eventResponse)).received_audio = [[7], [8]] := by
  have h := C8_receive_order
    [live.ScriptEvent.textFrag "hi", live.ScriptEvent.audioChunk [7],
     live.ScriptEvent.textFrag "yo", live.ScriptEvent.audioChunk [8]]
    (by decide)
  exact ⟨h.1.trans (by decide), h.2.1.trans (by decide)⟩
